import Mathlib

/-!
Shallow embedding of the Douyin video-downloader script
(src/课外学习/抖音爬取/测试.py) and verification of its specification.

The script is a single class `DouYin` with configuration loading,
a history ledger (history.txt), sec_uid extraction from a resolved
profile URL, a paginated catalog fetch (`get_video_urls`), a streaming
downloader (`video_downloader`), and a `run` loop over configured links.
The source file is GB2312-encoded and its Chinese string literals are
mojibaked in the checkout; those literals are modelled below as opaque
named constants (only their identity and non-emptiness are visible in
the source bytes, and nothing more is needed by any property).

Notable facts of the source, reflected faithfully in this embedding:
* the sanitization regex on lines 97 and 101 is `[\/:*?"<>|]`, whose
  character class contains `/ : * ? " < > |` but NOT a backslash
  (`\/` is an escaped forward slash);
* the pagination/download loop of `get_video_by_url` (lines 188-215)
  is commented out in the source: the live function body only resolves
  the sec_uid and prints it;
* `video_downloader` is not decorated with `@retry`, unlike
  `get_request` / `post_request`;
* the `for url in self.shared_list` loop in `run` has no exception
  handling, so an exception from `get_sec_uid` aborts the whole run.
-/

namespace DY

/-- The characters removed by the source's regex `[\/:*?"<>|]`
(lines 97 and 101).  In a Python regular expression `\/` denotes a
literal forward slash, so the class holds exactly these eight
characters — a backslash is not among them. -/
def regexForbidden : List Char := ['/', ':', '*', '?', '"', '<', '>', '|']

/-- The nine forbidden filesystem characters named by the spec:
`/ \ : * ? " < > |`.  Kept separate from `regexForbidden` so the two
can be compared. -/
def specForbidden : List Char := ['/', '\\', ':', '*', '?', '"', '<', '>', '|']

/-- Model of `re.sub(r'[\/:*?"<>|]', '', s)`: delete every occurrence
of a character of the class from `s`. -/
def sanitize (s : String) : String :=
  String.mk (s.data.filter (fun c => !(regexForbidden.contains c)))

/-- The mojibaked literal prefix of the placeholder title on line 101
(`'...' + str(int(time.time()))`); a non-empty GB2312 byte string in
the source, rendered here by its intended reading. -/
def placeholderHead : String := "无标题"

/-- The placeholder title built on line 101 for an item with a falsy
`desc`: the placeholder prefix followed by the integral Unix time. -/
def placeholderTitle (now : Nat) : String :=
  placeholderHead ++ toString now

/-- A catalog item as delivered by the API: `item['desc']` (absent or
empty modelled as `none` / `some ""`, both falsy in Python),
`item['author']['nickname']` and `item['video']['play_addr']['url_list'][0]`. -/
structure RawItem where
  desc : Option String
  authorNickname : String
  playUrl : String
deriving Repr, DecidableEq

/-- The normalized entry appended to `video_list` (lines 100-103). -/
structure VideoItem where
  desc : String
  url : String
deriving Repr, DecidableEq

/-- Python truthiness of `item['desc']`: falsy when absent/None or
the empty string. -/
def descTruthy : Option String → Bool
  | none => false
  | some d => d ≠ ""

/-- Lines 100-103: `'desc': re.sub(...) if item['desc'] else
placeholder`, `'url': item['video']['play_addr']['url_list'][0]`. -/
def mkVideoItem (now : Nat) (it : RawItem) : VideoItem :=
  { desc := match it.desc with
      | some d => if d ≠ "" then sanitize d else placeholderTitle now
      | none => placeholderTitle now
    url := it.playUrl }

/-- Model of Python `str.strip()` on a character list: drop leading and
trailing whitespace.  (Python also strips `\f`/`\v`, which never occur
in the md5-hexdigest keys the script stores.) -/
def stripChars (l : List Char) : List Char :=
  ((l.dropWhile Char.isWhitespace).reverse.dropWhile Char.isWhitespace).reverse

/-- Model of Python `str.strip()` on strings. -/
def pyStrip (s : String) : String :=
  String.mk (stripChars s.data)

/-- Model of Python `file.readlines()` followed by dropping the line
terminator: split the character stream at each newline; a final chunk
not terminated by a newline is a line of its own; a trailing newline
does not create an extra empty line. -/
def linesOf : List Char → List (List Char)
  | [] => []
  | c :: rest =>
    if c = '\n' then [] :: linesOf rest
    else match linesOf rest with
      | [] => [[c]]
      | l :: ls => (c :: l) :: ls

/-- The text of a history file made of the given lines, each terminated
by a newline — the only shape `save_history` ever writes. -/
def linesJoin (ls : List (List Char)) : List Char :=
  (ls.map (fun l => l ++ ['\n'])).flatten

/-- Lines 148-156, `get_history`: read every line of `history.txt`
(modelled by the file's full text) and strip it. -/
def get_history (file : String) : List String :=
  (linesOf file.data).map (fun l => String.mk (stripChars l))

/-- Lines 158-160, `save_history`: append `title.strip() + '\n'` to
`history.txt`. -/
def save_history (file : String) (title : String) : String :=
  file ++ pyStrip title ++ "\n"

/-- The ledger state: the in-memory list `self.history` and the text of
its backing file `history.txt`. -/
structure Ledger where
  mem : List String
  file : String
deriving Repr, DecidableEq

/-- Membership test `md5 in self.history` (line 208). -/
def ledger_contains (l : Ledger) (k : String) : Bool :=
  l.mem.contains k

/-- Appending a key to the ledger: `self.history.append(md5)` followed
by `self.save_history(md5)` (lines 212-213). -/
def ledger_append (l : Ledger) (k : String) : Ledger :=
  { mem := l.mem ++ [k], file := save_history l.file k }

/-- A restart: the in-memory list is rebuilt from the backing file by
`get_history` (line 164, `self.history = self.get_history()`). -/
def ledger_reload (l : Ledger) : Ledger :=
  { l with mem := get_history l.file }

/-- One decoded JSON response of the catalog API (line 87,
`html = json.loads(response.content.decode())`): the `aweme_list`
items, the `max_cursor` token and the integer `has_more` flag that the
source converts with `bool(...)` on line 90. -/
structure ApiPage where
  aweme_list : List RawItem
  max_cursor : Int
  has_more : Int
deriving Repr, DecidableEq

/-- The mutable state of the `while result == []` loop of
`get_video_urls` (lines 77-91): the attempt counter `i`, the `result`
items, and `max_cursor` / `has_more`, which are only reassigned when a
response has a non-empty `aweme_list` (lines 88-91). -/
structure FetchLoopState where
  i : Nat
  result : List RawItem
  max_cursor : Int
  has_more : Bool
deriving Repr, DecidableEq

/-- Lines 80-91: each iteration increments and prints the attempt
counter, issues the request with the current `max_cursor` — recorded in
the call log as an (attempt number, cursor) pair — and stores the
page's cursor, `has_more` and items only when `aweme_list` is
non-empty, which ends the loop.  The successive API responses are
supplied as a list; `none` means the loop is still running when the
supplied responses run out. -/
def fetch_loop (st : FetchLoopState) (log : List (Nat × Int)) :
    List ApiPage → Option (FetchLoopState × List (Nat × Int))
  | [] => none
  | p :: rest =>
    if p.aweme_list ≠ [] then
      some ({ i := st.i + 1, result := p.aweme_list, max_cursor := p.max_cursor,
              has_more := p.has_more != 0 }, log ++ [(st.i + 1, st.max_cursor)])
    else
      fetch_loop { st with i := st.i + 1 } (log ++ [(st.i + 1, st.max_cursor)]) rest

/-- Lines 93-98: the nickname is the raw `item['author']['nickname']`
of the first item whose sanitized nickname is non-empty (the `re.sub`
guards the assignment, but the unsanitized value is stored). -/
def pickNickname : List RawItem → Option String
  | [] => none
  | it :: rest =>
    if sanitize it.authorNickname ≠ "" then some it.authorNickname
    else pickNickname rest

/-- The tuple returned by `get_video_urls` (line 104), together with
the log of API calls the function issued. -/
structure FetchOutcome where
  nickname : Option String
  video_list : List VideoItem
  max_cursor : Int
  has_more : Bool
  callLog : List (Nat × Int)
deriving Repr, DecidableEq

/-- Lines 74-104, `get_video_urls`: run the retry loop from `i = 0`,
`result = []`, `has_more = False` and the caller's cursor, then build
the nickname and the normalized `video_list`. -/
def get_video_urls (now : Nat) (max_cursor : Int) (pages : List ApiPage) :
    Option FetchOutcome :=
  match fetch_loop { i := 0, result := [], max_cursor := max_cursor, has_more := false } [] pages with
  | none => none
  | some (st, log) =>
    some { nickname := pickNickname st.result
           video_list := st.result.map (mkVideoItem now)
           max_cursor := st.max_cursor
           has_more := st.has_more
           callLog := log }

/-- The expected call log of `fetch_loop`: `n` calls numbered
`i0 + 1, …, i0 + n`, all with the same cursor. -/
def expectedLog (i0 : Nat) (cur : Int) : Nat → List (Nat × Int)
  | 0 => []
  | n + 1 => (i0 + 1, cur) :: expectedLog (i0 + 1) cur n

/-- The default save path assigned in `__init__` (line 32). -/
def defaultSavePath : String := "D:\\Pics\\Download"

/-- The default progress-bar block count assigned in `__init__`
(line 33). -/
def defaultBlockCount : Int := 50

/-- Python `s.split(sep)` for a one-character separator, on character
lists; an empty input yields one empty field, as in Python. -/
def splitOnChar (sep : Char) : List Char → List (List Char)
  | [] => [[]]
  | c :: rest =>
    let r := splitOnChar sep rest
    if c = sep then [] :: r
    else match r with
      | [] => [[c]]
      | l :: ls => (c :: l) :: ls

/-- Python `s.split(sep)` on strings. -/
def pySplit (s : String) (sep : Char) : List String :=
  (splitOnChar sep s.data).map String.mk

/-- Model of Python `int(s)`: optional surrounding whitespace, an
optional sign, then at least one digit.  (Digit-grouping underscores
are not modelled; no claim involves them.) -/
def pyInt (s : String) : Option Int :=
  let t := stripChars s.data
  let digitsVal (l : List Char) : Nat := l.foldl (fun acc c => acc * 10 + (c.toNat - 48)) 0
  match t with
  | '-' :: rest =>
      if rest ≠ [] ∧ rest.all Char.isDigit then some (-(digitsVal rest : Int)) else none
  | '+' :: rest =>
      if rest ≠ [] ∧ rest.all Char.isDigit then some (digitsVal rest : Int) else none
  | l =>
      if l ≠ [] ∧ l.all Char.isDigit then some (digitsVal l : Int) else none

/-- The configuration resource seen by `read_config`: the three
recognized keys of the (mojibaked GB2312) section — the user page
list, the save directory and the progress-bar width.  `none` models a
key absent from the file (`config.get` raises `NoOptionError`);
`some ""` models a key present with an empty value. -/
structure RawConfig where
  userList : Option String
  saveDir : Option String
  barWidth : Option String
deriving Repr, DecidableEq

/-- The observable outcome of `read_config` (lines 36-61): a parsed
configuration, or termination by `exit(0)` — either at the
empty-link-list prompt (lines 45-47) or in the generic `except` handler
(lines 59-61), which catches both `NoOptionError` raised by
`config.get` on an absent key and `ValueError` raised by `int(...)` on
an unparsable width. -/
inductive ConfigResult where
  | ok (shared_list : List String) (save_path : String) (block_count : Int)
  | exitEmptyList
  | exitReadFailure
deriving Repr, DecidableEq

/-- Lines 42-61 of `read_config`, after the config file exists: read
the user list (absent key raises, caught by the `except`: exit); an
empty list value prompts and exits; split the list on commas; read the
save directory (absent: exit; empty: keep the default); read the bar
width (absent: exit; empty: keep the default; non-integer: `int`
raises, caught by the `except`: exit). -/
def read_config (c : RawConfig) : ConfigResult :=
  match c.userList with
  | none => .exitReadFailure
  | some v =>
    if v = "" then .exitEmptyList
    else
      let shared := pySplit v ','
      match c.saveDir with
      | none => .exitReadFailure
      | some d =>
        let save := if d = "" then defaultSavePath else d
        match c.barWidth with
        | none => .exitReadFailure
        | some w =>
          if w = "" then .ok shared save defaultBlockCount
          else
            match pyInt w with
            | none => .exitReadFailure
            | some n => .ok shared save n

/-- The pattern `sec_uid=` searched for by the regex on line 145. -/
def secUidPat : List Char := ['s', 'e', 'c', '_', 'u', 'i', 'd', '=']

/-- The lazy `.*?\&` tail of the regex on line 145: take the characters
up to the nearest following `&`; fail at end of input or at a newline
(`.` does not match newlines). -/
def takeUntilAmp : List Char → Option (List Char)
  | [] => none
  | c :: rest =>
    if c = '&' then some []
    else if c = '\n' then none
    else (takeUntilAmp rest).map (fun l => c :: l)

/-- Model of `re.search(r'sec_uid=.*?\&', url)` followed by
`group(0)[8:-1]` (lines 145-146): at the leftmost position where
`sec_uid=` occurs AND a `&` follows the equals sign on the same line,
return the characters between them; positions where the tail cannot
complete are skipped, as the regex engine does. -/
def secUidSearch : List Char → Option (List Char)
  | [] => none
  | c :: rest =>
    if (c :: rest).take 8 = secUidPat then
      match takeUntilAmp ((c :: rest).drop 8) with
      | some uid => some uid
      | none => secUidSearch rest
    else secUidSearch rest

/-- Lines 143-146, `get_sec_uid`, applied to the canonical URL the
redirect chain resolved to (`rsp.url`): `none` models the
`AttributeError` raised by `.group(0)` when `re.search` finds no
match. -/
def get_sec_uid (resolvedUrl : String) : Option String :=
  (secUidSearch resolvedUrl.data).map String.mk

/-- Lines 176-216, the LIVE `get_video_by_url`: everything after the
sec_uid resolution (pagination, directory creation, downloads, history
writes — lines 188-215) is commented out in the source, so the live
function resolves the sec_uid, prints it and returns.  The result
carries the resolved uid, the downloads performed (always none) and the
ledger (always unchanged); `.error` models the uncaught
`AttributeError`. -/
def get_video_by_url_live (resolve : String → String) (url : String)
    (l : Ledger) : Except Unit (String × List String × Ledger) :=
  match get_sec_uid (resolve url) with
  | none => .error ()
  | some s => .ok (s, [], l)

/-- Lines 172-174 of `run`: iterate the configured links in order with
no exception handling, so one uncaught exception terminates the loop
and the run.  Returns the links whose processing completed and whether
the run crashed. -/
def run_links (resolve : String → String) (l : Ledger) :
    List String → List String × Bool
  | [] => ([], false)
  | url :: rest =>
    match get_video_by_url_live resolve url l with
    | .error _ => ([], true)
    | .ok _ =>
      match run_links resolve l rest with
      | (ls, c) => (url :: ls, c)

/-- An HTTP response as far as `get_request` inspects it: the status
code. -/
structure HttpResponse where
  status : Nat
deriving Repr, DecidableEq

/-- The body of `get_request` (lines 128-133) for one attempt: one
`requests.get` — the transport maps the attempt index to an outcome,
`.error` being a raised transport exception — followed by
`assert response.status_code == 200`, whose failure is also an
exception. -/
def attemptBody (transport : Nat → Except Unit HttpResponse) (k : Nat) :
    Except Unit HttpResponse :=
  match transport k with
  | .error e => .error e
  | .ok r => if r.status = 200 then .ok r else .error ()

/-- Model of the `@retry(stop_max_attempt_number=3)` decorator
(line 127): run the body up to `n` times starting at attempt `k`,
returning the first success, or the last failure once the bound is
exhausted; the second component counts the attempts issued. -/
def retryUpTo (body : Nat → Except Unit HttpResponse) :
    Nat → Nat → Except Unit HttpResponse × Nat
  | 0, _ => (.error (), 0)
  | 1, k => (body k, 1)
  | n + 2, k =>
    match body k with
    | .ok r => (.ok r, 1)
    | .error _ =>
      match retryUpTo body (n + 1) (k + 1) with
      | (res, used) => (res, used + 1)

/-- Lines 127-133, `get_request`: the retry-decorated page fetch, with
the number of attempts issued. -/
def get_request (transport : Nat → Except Unit HttpResponse) :
    Except Unit HttpResponse × Nat :=
  retryUpTo (attemptBody transport) 3 0

/-- The streaming response of `requests.get(..., stream=True)` on
line 110, as far as `video_downloader` inspects it: the status code,
the `content-length` header (`none` when the header is absent — the
dict access on line 112 then raises `KeyError`), and the body chunk
sizes delivered by `iter_content`. -/
structure StreamResponse where
  status : Nat
  contentLength : Option Nat
  chunks : List Nat
deriving Repr, DecidableEq

/-- The filesystem (the list of existing paths, duplicate-free) and
`self.current_download_name` (line 34). -/
structure FsState where
  fs : List String
  current_download_name : String
deriving Repr, DecidableEq

/-- Creating a path (Python `open(p, 'wb')`: truncates if the path
already exists, creates it otherwise). -/
def fsAdd (fs : List String) (p : String) : List String :=
  if fs.contains p then fs else fs ++ [p]

/-- Removing a path (`os.remove` / the source side of `os.rename`). -/
def fsRemove (fs : List String) (p : String) : List String :=
  fs.filter (fun q => !(q == p))

/-- Lines 107-125, `video_downloader`: rewrite the URL host (not
modelled: it does not affect the state), issue ONE streaming GET — the
function carries no `@retry` decorator — read the `content-length`
header (line 112, raising `KeyError` if absent, before the status is
inspected), and only on status 200: record the target in
`current_download_name` (line 115), stream the body to the target path
(line 116), then rename the target to its final `.mp4` extension
(line 125).  Byte counting drives only console progress output and is
not part of the state.  `.error` models an uncaught exception. -/
def video_downloader (transport : Nat → Except Unit StreamResponse)
    (st : FsState) (video_name : String) : Except Unit FsState :=
  match transport 0 with
  | .error e => .error e
  | .ok r =>
    match r.contentLength with
    | none => .error ()
    | some _ =>
      if r.status = 200 then
        .ok { fs := fsAdd (fsRemove (fsAdd st.fs video_name) video_name)
                      (video_name ++ ".mp4")
              current_download_name := video_name }
      else
        .ok st

/-- The state visible when the operator interrupts the process inside
the chunk loop of `video_downloader` (lines 116-124):
`current_download_name` has been set (line 115), the partial target
file exists without its final extension (line 116), and the rename of
line 125 has not executed. -/
def download_in_progress (st : FsState) (video_name : String) : FsState :=
  { fs := fsAdd st.fs video_name, current_download_name := video_name }

/-- Lines 70-72, `remove`: delete the recorded current download target
if it exists. -/
def remove (st : FsState) : FsState :=
  if st.fs.contains st.current_download_name then
    { st with fs := fsRemove st.fs st.current_download_name }
  else st

/-- Lines 222-225, the `except KeyboardInterrupt` handler:
`app.remove()`, a confirmation prompt, then `exit(0)`.  The handler
performs no history write, so the ledger passes through unchanged; the
returned number is the process exit status. -/
def keyboard_interrupt_handler (st : FsState) (l : Ledger) :
    FsState × Ledger × Nat :=
  (remove st, l, 0)

/-- The mojibaked `'@...'` douyin-assistant tag stripped from titles on
line 202 of the commented loop; a non-empty GB2312 byte string in the
source, rendered by its intended reading. -/
def assistantTag : String := "@抖音小助手"

/-- Fuel-indexed core of Python `str.replace(pat, repl)`: scan left to
right; at a match of `pat`, emit `repl` and continue after the match.
The fuel is the input length, which bounds the recursion since every
step consumes at least one character (`pat` is non-empty whenever the
first branch is taken). -/
def replaceGo (pat repl : List Char) : Nat → List Char → List Char
  | 0, l => l
  | _ + 1, [] => []
  | fuel + 1, c :: rest =>
    if pat ≠ [] ∧ (c :: rest).take pat.length = pat then
      repl ++ replaceGo pat repl fuel ((c :: rest).drop pat.length)
    else
      c :: replaceGo pat repl fuel rest

/-- Python `s.replace(pat, repl)`. -/
def pyReplace (s pat repl : String) : String :=
  String.mk (replaceGo pat.data repl.data s.data.length s.data)

/-- Line 202 of the commented loop: the filename of one item —
`desc.replace('@...', '').strip()`. -/
def itemTitle (it : VideoItem) : String :=
  pyStrip (pyReplace it.desc assistantTag "")

/-- Model of `os.path.join` with POSIX separators, as exercised by the
commented loop on lines 190 and 205. -/
def pathJoin (a b : String) : String :=
  if a.data.getLast? = some '/' then a ++ b else a ++ "/" ++ b

/-- The effects of one page of the commented download loop
(lines 200-214): for each item in page order build the title, target
path and history key `md5(nickname + '\\' + title)`; skip the item if
the key is in the in-memory history, otherwise download to the target
path and append the key to the in-memory history and the history file.
The md5 function is a parameter of the model. -/
structure PageEffects where
  downloads : List String
  appended : List String
  ledger : Ledger
deriving Repr, DecidableEq

def process_page (md5 : String → String) (nickname_dir nickname : String) :
    List VideoItem → Ledger → PageEffects
  | [], l => { downloads := [], appended := [], ledger := l }
  | it :: rest, l =>
    let title := itemTitle it
    let video_path := pathJoin nickname_dir title
    let key := md5 (nickname ++ "\\" ++ title)
    if l.mem.contains key then
      process_page md5 nickname_dir nickname rest l
    else
      match process_page md5 nickname_dir nickname rest (ledger_append l key) with
      | e => { downloads := video_path :: e.downloads
               appended := key :: e.appended
               ledger := e.ledger }

/-- The result of one `get_video_urls` call as consumed by the
commented `while has_more` loop. -/
structure PageData where
  nickname : String
  items : List VideoItem
  hasMore : Bool
deriving Repr, DecidableEq

/-- The commented `while has_more` pagination loop (lines 188-215),
modelled over the successive `get_video_urls` results: process each
page with `process_page` and continue while the page's `has_more` is
set; `none` models the loop still requesting pages after the supplied
results are exhausted.  Returns the downloads, the appended keys, and
the final ledger. -/
def paginate_download (md5 : String → String) (save_path : String) :
    List PageData → Ledger → Option (List String × List String × Ledger)
  | [], _ => none
  | p :: rest, l =>
    match process_page md5 (pathJoin save_path p.nickname) p.nickname p.items l with
    | e =>
      if p.hasMore then
        match paginate_download md5 save_path rest e.ledger with
        | none => none
        | some (d, a, l2) => some (e.downloads ++ d, e.appended ++ a, l2)
      else
        some (e.downloads, e.appended, e.ledger)

/-- A concrete redirect resolver for counterexamples: the first link
resolves to a canonical URL without a `sec_uid` query parameter, the
second to one with `sec_uid=UID2`. -/
def cexResolve (u : String) : String :=
  if u = "L1" then "https://www.iesdouyin.com/share/user/x?from=web"
  else "https://www.iesdouyin.com/share/user/y?sec_uid=UID2&from=web"

/-- A concrete stand-in hash for closed scenarios (the pipeline model
is parametric in the hash; injectivity is irrelevant to the scenarios
used). -/
def cexMd5 (s : String) : String := "h" ++ s

/-- A transport whose first attempt raises and whose later attempts
return status 200 — a transient failure a 3-attempt retry absorbs. -/
def flakyHttp (k : Nat) : Except Unit HttpResponse :=
  if k = 0 then .error () else .ok ⟨200⟩

/-- The same transient failure on the streaming download transport. -/
def flakyStream (k : Nat) : Except Unit StreamResponse :=
  if k = 0 then .error () else .ok ⟨200, some 1024, [1024]⟩

/-- A transport that raises on every attempt. -/
def failHttp (_ : Nat) : Except Unit HttpResponse := .error ()

/-- A streaming transport that raises on every attempt. -/
def failStream (_ : Nat) : Except Unit StreamResponse := .error ()

/-- A streaming transport answering 404 with a `content-length`
header. -/
def notFoundStream (_ : Nat) : Except Unit StreamResponse :=
  .ok ⟨404, some 100, []⟩

end DY

namespace DY

/-- Auxiliary: reading one newline-terminated line back. -/
theorem linesOf_cons_line (l : List Char) (rest : List Char) (hl : '\n' ∉ l) :
    linesOf (l ++ '\n' :: rest) = l :: linesOf rest := by
  induction l with
  | nil => simp [linesOf]
  | cons c l ih =>
      have hc : c ≠ '\n' := by
        intro h; exact hl (h ▸ List.mem_cons_self c l)
      have hl' : '\n' ∉ l := fun h => hl (List.mem_cons_of_mem c h)
      simp [linesOf, hc, ih hl']

/-- Auxiliary: `linesOf` recovers the lines of a well-formed file. -/
theorem linesOf_linesJoin (ls : List (List Char)) (h : ∀ l ∈ ls, '\n' ∉ l) :
    linesOf (linesJoin ls) = ls := by
  induction ls with
  | nil => simp [linesJoin, linesOf]
  | cons l ls ih =>
      have hl : '\n' ∉ l := h l (List.mem_cons_self l ls)
      have hls : ∀ x ∈ ls, '\n' ∉ x := fun x hx => h x (List.mem_cons_of_mem l hx)
      have hj : linesJoin (l :: ls) = l ++ '\n' :: linesJoin ls := by
        simp [linesJoin, List.append_assoc]
      rw [hj, linesOf_cons_line l _ hl, ih hls]

/-- C2 (counterexample): the raw title `"a\b"` contains a backslash —
one of the spec's nine forbidden characters — yet the sanitized
filename still contains it: the source regex does not remove
backslashes, so the claim as stated is false at this input. -/
theorem sanitize_keeps_backslash :
    ('\\' ∈ specForbidden) ∧ sanitize "a\\b" = "a\\b" ∧ '\\' ∈ (sanitize "a\\b").data := by
  refine ⟨by decide, by decide, by decide⟩

/-- C2 (amended): for every raw title, the sanitized filename contains
none of the eight characters of the source's character class
`/ : * ? " < > |`; the backslash is not removed. -/
theorem sanitize_removes_regex_forbidden (s : String) :
    (sanitize s).data.all (fun c => !(regexForbidden.contains c)) = true := by
  unfold sanitize
  rw [List.all_eq_true]
  intro c hc
  have := List.of_mem_filter hc
  simpa using this

/-- Auxiliary: the time-stamped placeholder title is never empty. -/
theorem placeholderTitle_ne_empty (now : Nat) : placeholderTitle now ≠ "" := by
  intro h
  have hlen := congrArg String.length h
  simp [placeholderTitle, String.length_append, placeholderHead] at hlen
  exact absurd hlen.1 (by decide)

/-- C6 (counterexample): two distinct items of the same page, both with
an empty title, processed at the same integral second, receive the SAME
derived filename — the time-stamped placeholder has one-second
granularity, so the claimed non-collision is false at this input. -/
theorem empty_title_same_second_collision :
    (⟨some "", "nick", "url1"⟩ : RawItem) ≠ (⟨none, "nick", "url2"⟩ : RawItem) ∧
    (mkVideoItem 1611206040 ⟨some "", "nick", "url1"⟩).desc
      = (mkVideoItem 1611206040 ⟨none, "nick", "url2"⟩).desc := by
  exact ⟨by decide, by decide⟩

/-- C6 (amended): every item whose title is empty or absent derives the
time-stamped placeholder as filename, which is non-empty; hence all
empty-titled items processed within the same integral second receive
one and the same filename — they collide rather than stay distinct. -/
theorem empty_title_placeholder (now : Nat) (it : RawItem)
    (h : descTruthy it.desc = false) :
    (mkVideoItem now it).desc = placeholderTitle now ∧
    (mkVideoItem now it).desc ≠ "" := by
  obtain ⟨d, n, u⟩ := it
  cases d with
  | none =>
      exact ⟨rfl, by simp [mkVideoItem]; exact placeholderTitle_ne_empty now⟩
  | some d =>
      have hd : d = "" := by
        by_contra hne
        simp [descTruthy, hne] at h
      subst hd
      constructor
      · simp [mkVideoItem]
      · simp [mkVideoItem]
        exact placeholderTitle_ne_empty now

/-- Witness for `empty_title_placeholder` at a concrete input. -/
theorem empty_title_placeholder_witness :
    descTruthy (some "") = false ∧
    ((mkVideoItem 7 ⟨some "", "n", "u"⟩).desc = placeholderTitle 7 ∧
     (mkVideoItem 7 ⟨some "", "n", "u"⟩).desc ≠ "") :=
  ⟨by decide, empty_title_placeholder 7 ⟨some "", "n", "u"⟩ (by decide)⟩

/-- C8: after `append(k)`, `contains(k)` is true within the same run —
the in-memory list reflects the append — and across a restart that
reloads the ledger from its backing file: the written line, stripped,
equals `k`.  The hypotheses say the backing file is the
newline-terminated record sequence the program itself maintains and
that `k` is whitespace-trimmed and newline-free, as every md5-hexdigest
key stored by the script is. -/
theorem ledger_append_then_contains (l : Ledger) (ls : List (List Char)) (k : String)
    (hfile : l.file.data = linesJoin ls) (hls : ∀ x ∈ ls, '\n' ∉ x)
    (hk : pyStrip k = k) (hnl : '\n' ∉ k.data) :
    ledger_contains (ledger_append l k) k = true ∧
    ledger_contains (ledger_reload (ledger_append l k)) k = true := by
  constructor
  · simp [ledger_contains, ledger_append]
  · have hdata : (save_history l.file k).data = linesJoin (ls ++ [k.data]) := by
      show (l.file ++ pyStrip k ++ "\n").data = _
      rw [hk]
      have hnld : "\n".data = ['\n'] := rfl
      rw [String.data_append, String.data_append, hnld, hfile]
      simp [linesJoin]
    have hall : ∀ x ∈ ls ++ [k.data], '\n' ∉ x := by
      intro x hx
      rcases List.mem_append.mp hx with h1 | h2
      · exact hls x h1
      · simp at h2; subst h2; exact hnl
    have hmem : get_history (save_history l.file k) =
        (ls ++ [k.data]).map (fun c => String.mk (stripChars c)) := by
      simp only [get_history]
      rw [hdata, linesOf_linesJoin _ hall]
    have hkmem : k ∈ get_history (save_history l.file k) := by
      rw [hmem]
      have h1 : k.data ∈ ls ++ [k.data] := List.mem_append_right _ (by simp)
      have h2 : String.mk (stripChars k.data) = k := hk
      have h3 := List.mem_map_of_mem (fun c => String.mk (stripChars c)) h1
      simp only at h3
      rwa [h2] at h3
    simpa [ledger_contains, ledger_reload, ledger_append] using hkmem

/-- Auxiliary: the retry loop of `get_video_urls` on a run of empty
pages followed by a non-empty one: it walks past every empty page
without touching cursor or `has_more`, logging one numbered call per
page with the unchanged cursor, and stops at the non-empty page. -/
theorem fetch_loop_spec (empties : List ApiPage) (p : ApiPage) (rest : List ApiPage)
    (he : ∀ q ∈ empties, q.aweme_list = []) (hp : p.aweme_list ≠ [])
    (st : FetchLoopState) (log : List (Nat × Int)) :
    fetch_loop st log (empties ++ p :: rest)
      = some ({ i := st.i + empties.length + 1, result := p.aweme_list,
                max_cursor := p.max_cursor, has_more := p.has_more != 0 },
              log ++ expectedLog st.i st.max_cursor (empties.length + 1)) := by
  induction empties generalizing st log with
  | nil =>
      simp [fetch_loop, hp, expectedLog]
  | cons q qs ih =>
      have hq : q.aweme_list = [] := he q (List.mem_cons_self q qs)
      have hqs : ∀ x ∈ qs, x.aweme_list = [] := fun x hx => he x (List.mem_cons_of_mem q hx)
      have step : fetch_loop st log ((q :: qs) ++ p :: rest)
          = fetch_loop { st with i := st.i + 1 } (log ++ [(st.i + 1, st.max_cursor)])
              (qs ++ p :: rest) := by
        simp [fetch_loop, hq]
      rw [step, ih hqs]
      simp [expectedLog, FetchLoopState.mk.injEq]
      omega

/-- Auxiliary: every call recorded by `expectedLog` carries the same
cursor. -/
theorem expectedLog_map_snd (i0 : Nat) (cur : Int) (n : Nat) :
    (expectedLog i0 cur n).map Prod.snd = List.replicate n cur := by
  induction n generalizing i0 with
  | zero => rfl
  | succ n ih => simp [expectedLog, ih, List.replicate_succ]

/-- Auxiliary: the attempt numbers recorded by `expectedLog` increment
one by one. -/
theorem expectedLog_map_fst (i0 : Nat) (cur : Int) (n : Nat) :
    (expectedLog i0 cur n).map Prod.fst = (List.range n).map (fun j => i0 + j + 1) := by
  induction n generalizing i0 with
  | zero => rfl
  | succ n ih =>
      simp only [expectedLog, List.map_cons, ih, List.range_succ_eq_map, List.map_map]
      refine congrArg₂ _ (by omega) ?_
      exact List.map_congr_left (fun x _ => by simp [Function.comp]; omega)

/-- C4: when catalog calls return an empty item list, `get_video_urls`
does not advance the cursor and does not update `has_more`: every call,
the retries included, is issued with the original cursor; an
incrementing attempt count (1, 2, …) is printed for each call; the
function returns only at the first non-empty page, with the returned
cursor and `has_more` taken from that page. -/
theorem get_video_urls_empty_page_retry (now : Nat) (cursor : Int)
    (empties : List ApiPage) (p : ApiPage) (rest : List ApiPage)
    (he : ∀ q ∈ empties, q.aweme_list = []) (hp : p.aweme_list ≠ []) :
    ∃ out, get_video_urls now cursor (empties ++ p :: rest) = some out ∧
      out.max_cursor = p.max_cursor ∧
      out.has_more = (p.has_more != 0) ∧
      out.video_list = p.aweme_list.map (mkVideoItem now) ∧
      out.callLog = expectedLog 0 cursor (empties.length + 1) ∧
      out.callLog.map Prod.snd = List.replicate (empties.length + 1) cursor ∧
      out.callLog.map Prod.fst = (List.range (empties.length + 1)).map (fun j => j + 1) := by
  have h := fetch_loop_spec empties p rest he hp
      { i := 0, result := [], max_cursor := cursor, has_more := false } []
  simp only [List.nil_append] at h
  refine ⟨{ nickname := pickNickname p.aweme_list
            video_list := p.aweme_list.map (mkVideoItem now)
            max_cursor := p.max_cursor
            has_more := p.has_more != 0
            callLog := expectedLog 0 cursor (empties.length + 1) },
          ?_, rfl, rfl, rfl, rfl, ?_, ?_⟩
  · simp [get_video_urls, h]
  · exact expectedLog_map_snd 0 cursor (empties.length + 1)
  · simpa using expectedLog_map_fst 0 cursor (empties.length + 1)

/-- Witness for `get_video_urls_empty_page_retry` at a concrete input:
two empty pages (carrying cursors that must be ignored) followed by a
one-item page. -/
theorem get_video_urls_empty_page_retry_witness :
    ((∀ q ∈ [ApiPage.mk [] 5 1, ApiPage.mk [] 6 1], q.aweme_list = []) ∧
     (ApiPage.mk [RawItem.mk (some "t") "nick" "u"] 42 0).aweme_list ≠ []) ∧
    (∃ out, get_video_urls 9 0
        ([ApiPage.mk [] 5 1, ApiPage.mk [] 6 1] ++
          ApiPage.mk [RawItem.mk (some "t") "nick" "u"] 42 0 :: []) = some out ∧
      out.max_cursor = (ApiPage.mk [RawItem.mk (some "t") "nick" "u"] 42 0).max_cursor ∧
      out.has_more = ((ApiPage.mk [RawItem.mk (some "t") "nick" "u"] 42 0).has_more != 0) ∧
      out.video_list = (ApiPage.mk [RawItem.mk (some "t") "nick" "u"] 42 0).aweme_list.map (mkVideoItem 9) ∧
      out.callLog = expectedLog 0 0 ([ApiPage.mk [] 5 1, ApiPage.mk [] 6 1].length + 1) ∧
      out.callLog.map Prod.snd = List.replicate ([ApiPage.mk [] 5 1, ApiPage.mk [] 6 1].length + 1) 0 ∧
      out.callLog.map Prod.fst = (List.range ([ApiPage.mk [] 5 1, ApiPage.mk [] 6 1].length + 1)).map (fun j => j + 1)) :=
  ⟨⟨by decide, by decide⟩,
   get_video_urls_empty_page_retry 9 0 [ApiPage.mk [] 5 1, ApiPage.mk [] 6 1]
     (ApiPage.mk [RawItem.mk (some "t") "nick" "u"] 42 0) [] (by decide) (by decide)⟩

/-- C5 (counterexample): with the link list configured, an absent
progress-bar-width key — and likewise an unparsable width value, or an
absent output-directory key — makes `read_config` exit through its
generic error handler instead of falling back to the built-in default:
the run halts, so the claim is false at these inputs. -/
theorem read_config_halts_on_absent_or_bad_key :
    read_config ⟨some "https://v.douyin.com/a/", some "./Download/", none⟩ = .exitReadFailure ∧
    read_config ⟨some "https://v.douyin.com/a/", some "./Download/", some "abc"⟩ = .exitReadFailure ∧
    read_config ⟨some "https://v.douyin.com/a/", none, some "50"⟩ = .exitReadFailure := by
  exact ⟨by decide, by decide, by decide⟩

/-- C5 (amended): the fallback to built-in defaults happens only when
the output-directory or bar-width key is present with an empty value —
then the run proceeds with the defaults; if either key is absent, or
the width value is unparsable, `read_config` halts the run through its
generic error handler. -/
theorem read_config_empty_value_defaults (v w : String)
    (hv : v ≠ "") (hw : w ≠ "") (hpw : pyInt w = none) :
    read_config ⟨some v, some "", some ""⟩
      = .ok (pySplit v ',') defaultSavePath defaultBlockCount ∧
    read_config ⟨some v, some "", none⟩ = .exitReadFailure ∧
    read_config ⟨some v, none, some "50"⟩ = .exitReadFailure ∧
    read_config ⟨some v, some "", some w⟩ = .exitReadFailure := by
  simp [read_config, hv, hw, hpw]

/-- Witness for `read_config_empty_value_defaults` at a concrete
input. -/
theorem read_config_empty_value_defaults_witness :
    ("https://v.douyin.com/a/" ≠ "" ∧ "abc" ≠ "" ∧ pyInt "abc" = none) ∧
    (read_config ⟨some "https://v.douyin.com/a/", some "", some ""⟩
       = .ok (pySplit "https://v.douyin.com/a/" ',') defaultSavePath defaultBlockCount ∧
     read_config ⟨some "https://v.douyin.com/a/", some "", none⟩ = .exitReadFailure ∧
     read_config ⟨some "https://v.douyin.com/a/", none, some "50"⟩ = .exitReadFailure ∧
     read_config ⟨some "https://v.douyin.com/a/", some "", some "abc"⟩ = .exitReadFailure) :=
  ⟨⟨by decide, by decide, by decide⟩,
   read_config_empty_value_defaults "https://v.douyin.com/a/" "abc"
     (by decide) (by decide) (by decide)⟩

/-- Witness for `ledger_append_then_contains` at a concrete input. -/
theorem ledger_append_then_contains_witness :
    ((Ledger.mk [] "").file.data = linesJoin [] ∧
     (∀ x ∈ ([] : List (List Char)), '\n' ∉ x) ∧
     pyStrip "a1b2" = "a1b2" ∧ '\n' ∉ "a1b2".data) ∧
    (ledger_contains (ledger_append (Ledger.mk [] "") "a1b2") "a1b2" = true ∧
     ledger_contains (ledger_reload (ledger_append (Ledger.mk [] "") "a1b2")) "a1b2" = true) :=
  ⟨⟨rfl, by simp, by decide, by decide⟩,
   ledger_append_then_contains (Ledger.mk [] "") [] "a1b2" rfl (by simp) (by decide) (by decide)⟩

/-- C3 (counterexample): two configured links; the first resolves to a
canonical URL lacking the `sec_uid` parameter, the second resolves
fine — yet the run crashes at the first link and the second is never
processed.  Extraction failure is fatal to the whole run, not only to
the single link, so the claim is false at this input. -/
theorem run_aborts_on_first_bad_link :
    get_sec_uid (cexResolve "L1") = none ∧
    get_sec_uid (cexResolve "L2") = some "UID2" ∧
    run_links cexResolve (Ledger.mk [] "") ["L1", "L2"] = ([], true) := by
  exact ⟨by decide, by decide, by decide⟩

/-- C3 (amended): when sec_uid extraction fails for a configured link
(the `sec_uid` query parameter is absent from the resolved URL), the
resulting uncaught `AttributeError` terminates the `run` loop at that
link: the run aborts and none of the remaining configured links is
processed. -/
theorem run_links_abort_on_resolution_failure (resolve : String → String)
    (l : Ledger) (url : String) (rest : List String)
    (h : get_sec_uid (resolve url) = none) :
    run_links resolve l (url :: rest) = ([], true) := by
  simp [run_links, get_video_by_url_live, h]

/-- Witness for `run_links_abort_on_resolution_failure` at a concrete
input. -/
theorem run_links_abort_on_resolution_failure_witness :
    get_sec_uid (cexResolve "L1") = none ∧
    run_links cexResolve (Ledger.mk ["x"] "x\n") ["L1", "L2", "L3"] = ([], true) :=
  ⟨by decide,
   run_links_abort_on_resolution_failure cexResolve (Ledger.mk ["x"] "x\n")
     "L1" ["L2", "L3"] (by decide)⟩

/-- C7 (counterexample): a transient transport failure on the first
attempt that succeeds on the second: the retry-decorated page fetch
absorbs it (success, 2 attempts issued), but the item downloader issues
no retry — the same transient failure propagates out of
`video_downloader` as an exception, so the download half of the claim
is false at this input. -/
theorem video_downloader_does_not_retry :
    get_request flakyHttp = (.ok ⟨200⟩, 2) ∧
    video_downloader flakyStream (FsState.mk [] "") "./Download/n/t" = .error () := by
  exact ⟨rfl, rfl⟩

/-- C7 (amended): a network/transport error or non-success status
during a single page fetch is retried up to 3 attempts before the
failure propagates (the decorator re-raises after the third attempt);
an item download, by contrast, is issued exactly once — a transport
failure on its single attempt propagates immediately, with no
retry. -/
theorem page_fetch_retries_three_times
    (transport : Nat → Except Unit HttpResponse)
    (stransport : Nat → Except Unit StreamResponse)
    (st : FsState) (name : String)
    (h0 : transport 0 = .error ()) (h1 : transport 1 = .error ())
    (h2 : transport 2 = .error ()) (hs0 : stransport 0 = .error ()) :
    get_request transport = (.error (), 3) ∧
    video_downloader stransport st name = .error () := by
  constructor
  · simp [get_request, retryUpTo, attemptBody, h0, h1, h2]
  · simp [video_downloader, hs0]

/-- Witness for `page_fetch_retries_three_times` at a concrete
input. -/
theorem page_fetch_retries_three_times_witness :
    (failHttp 0 = .error () ∧ failHttp 1 = .error () ∧ failHttp 2 = .error () ∧
     failStream 0 = .error ()) ∧
    (get_request failHttp = (.error (), 3) ∧
     video_downloader failStream (FsState.mk [] "") "t" = .error ()) :=
  ⟨⟨rfl, rfl, rfl, rfl⟩,
   page_fetch_retries_three_times failHttp failStream (FsState.mk [] "") "t"
     rfl rfl rfl rfl⟩

/-- Auxiliary: a freshly added path is reported as existing. -/
theorem fsAdd_contains (fs : List String) (p : String) :
    (fsAdd fs p).contains p = true := by
  unfold fsAdd
  split
  · assumption
  · simp

/-- Auxiliary: a removed path no longer exists. -/
theorem fsRemove_not_contains (fs : List String) (p : String) :
    (fsRemove fs p).contains p = false := by
  simp [fsRemove]

/-- C9: an operator interrupt mid-stream — after the in-flight name is
recorded and the partial file created, before the rename — runs the
cleanup handler, which removes the in-flight partial file (it is absent
from the filesystem afterwards); no ledger entry is written for that
item, in memory or in the backing file; and the process exit status is
zero. -/
theorem interrupt_mid_stream_cleanup (st : FsState) (l : Ledger)
    (name k : String) (hk : ledger_contains l k = false) :
    (keyboard_interrupt_handler (download_in_progress st name) l).1.fs.contains name = false ∧
    (keyboard_interrupt_handler (download_in_progress st name) l).2.1 = l ∧
    ledger_contains (keyboard_interrupt_handler (download_in_progress st name) l).2.1 k = false ∧
    (keyboard_interrupt_handler (download_in_progress st name) l).2.2 = 0 := by
  refine ⟨?_, rfl, hk, rfl⟩
  have hmid : (download_in_progress st name).fs.contains
      (download_in_progress st name).current_download_name = true := by
    simpa [download_in_progress] using fsAdd_contains st.fs name
  simp only [keyboard_interrupt_handler, remove, hmid, if_true]
  simpa [download_in_progress] using
    fsRemove_not_contains (fsAdd st.fs name) name

/-- Witness for `interrupt_mid_stream_cleanup` at a concrete input. -/
theorem interrupt_mid_stream_cleanup_witness :
    ledger_contains (Ledger.mk ["old"] "old\n") "kk" = false ∧
    ((keyboard_interrupt_handler
        (download_in_progress (FsState.mk ["a.mp4"] "") "./D/n/t")
        (Ledger.mk ["old"] "old\n")).1.fs.contains "./D/n/t" = false ∧
     (keyboard_interrupt_handler
        (download_in_progress (FsState.mk ["a.mp4"] "") "./D/n/t")
        (Ledger.mk ["old"] "old\n")).2.1 = Ledger.mk ["old"] "old\n" ∧
     ledger_contains
       (keyboard_interrupt_handler
          (download_in_progress (FsState.mk ["a.mp4"] "") "./D/n/t")
          (Ledger.mk ["old"] "old\n")).2.1 "kk" = false ∧
     (keyboard_interrupt_handler
        (download_in_progress (FsState.mk ["a.mp4"] "") "./D/n/t")
        (Ledger.mk ["old"] "old\n")).2.2 = 0) :=
  ⟨by decide,
   interrupt_mid_stream_cleanup (FsState.mk ["a.mp4"] "")
     (Ledger.mk ["old"] "old\n") "./D/n/t" "kk" (by decide)⟩

/-- C10: when the streaming response carries a `content-length` header
and a status code other than 200, `video_downloader` returns with the
state unchanged: no file is created at the target path, no rename to
the final extension occurs, and `current_download_name` keeps its
previous value. -/
theorem video_downloader_non_200
    (transport : Nat → Except Unit StreamResponse)
    (st : FsState) (name : String) (r : StreamResponse) (n : Nat)
    (ht : transport 0 = .ok r) (hcl : r.contentLength = some n)
    (hs : r.status ≠ 200) :
    video_downloader transport st name = .ok st := by
  simp [video_downloader, ht, hcl, hs]

/-- Witness for `video_downloader_non_200` at a concrete input. -/
theorem video_downloader_non_200_witness :
    (notFoundStream 0 = .ok ⟨404, some 100, []⟩ ∧
     (StreamResponse.mk 404 (some 100) []).contentLength = some 100 ∧
     (StreamResponse.mk 404 (some 100) []).status ≠ 200) ∧
    video_downloader notFoundStream (FsState.mk ["a"] "c") "t"
      = .ok (FsState.mk ["a"] "c") :=
  ⟨⟨rfl, rfl, by decide⟩,
   video_downloader_non_200 notFoundStream (FsState.mk ["a"] "c") "t"
     ⟨404, some 100, []⟩ 100 rfl rfl (by decide)⟩

/-- C1 (code evaluated at the failing input): the claim describes the
intended pipeline, which the source contains only as the commented-out
lines 188-215.  Conjunct 1: in the scenario, the sec_uid resolves.
Conjunct 2: the commented-code model, on one page with
`has_more=false` and two items neither in history, downloads both items
in page order to `save_path/nickname/title` and appends their two keys
to the ledger, then stops paginating.  Conjunct 3: the LIVE
`get_video_by_url` on the same scenario returns immediately after
resolving the sec_uid — zero downloads, ledger untouched — so the code
does not perform what the claim states. -/
theorem get_video_by_url_live_vs_commented :
    get_sec_uid (cexResolve "L2") = some "UID2" ∧
    paginate_download cexMd5 "./Download/"
        [PageData.mk "nick" [VideoItem.mk "t1" "u1", VideoItem.mk "t2" "u2"] false]
        (Ledger.mk [] "")
      = some (["./Download/nick/t1", "./Download/nick/t2"],
              ["hnick\\t1", "hnick\\t2"],
              Ledger.mk ["hnick\\t1", "hnick\\t2"] "hnick\\t1\nhnick\\t2\n") ∧
    get_video_by_url_live cexResolve "L2" (Ledger.mk [] "")
      = .ok ("UID2", [], Ledger.mk [] "") := by
  exact ⟨by decide, by decide, rfl⟩

end DY
